import Mathlib

/-!
Verification development for the `partnerboost-transaction-report` repository.

The scripts under verification poll a JSON reporting API, paginate through
result pages, aggregate rows by brand, maintain a local SQLite product table,
and render an HTML report.  This file shallowly embeds the relevant Python
functions:

* `DailyTransactionReport.fetch_transactions` / `aggregate_by_brand` /
  `write_html_report` / `parse_range_arg` (from `daily_transaction_report.py`);
* `DailyAmazonReport.fetch_amazon_report` / `get_brand_name_from_db` /
  `aggregate_by_brand` (from `daily_amazon_report.py`);
* `SyncProducts.upsert_product` / `fetch_fba_products_page`
  (from `sync_products.py`).

Scalar JSON/Python values are modelled by `PyVal`; Python floats are modelled
by rationals (the claims under verification concern which values flow where,
not IEEE rounding).  Network I/O is modelled by passing the sequence of
response envelopes the remote server would produce; raising an exception is
modelled by `Except.error` / `Option.none`.
-/

/-- Scalar Python/JSON value as manipulated by the scripts: `None`, `bool`,
`int`, `float` (modelled by `ℚ`), or `str`. -/
inductive PyVal where
  | none : PyVal
  | bool : Bool → PyVal
  | int : Int → PyVal
  | num : ℚ → PyVal
  | str : String → PyVal
deriving Repr, DecidableEq

/-- Python truthiness (`bool(v)`): `None`, `False`, `0`, `0.0` and `""` are
falsy, everything else truthy. -/
def pyTruthy : PyVal → Bool
  | PyVal.none => false
  | PyVal.bool b => b
  | PyVal.int n => decide (n ≠ 0)
  | PyVal.num q => decide (q ≠ 0)
  | PyVal.str s => decide (s ≠ "")

/-- Python `a or b`: the first operand when truthy, otherwise the second. -/
def pyOr (a b : PyVal) : PyVal := if pyTruthy a then a else b

/-- Numeric value of a `PyVal` under Python's numeric tower (`bool` counts as
`0`/`1`), `Option.none` when the value is not numeric. -/
def pyNumVal? : PyVal → Option ℚ
  | PyVal.bool b => some (if b then 1 else 0)
  | PyVal.int n => some ((n : ℚ))
  | PyVal.num q => some q
  | _ => Option.none

/-- Python `==`: numeric values compare by value across `bool`/`int`/`float`,
strings compare as strings, `None` equals only `None`, and values of
unrelated types are unequal. -/
def pyEq (a b : PyVal) : Bool :=
  match pyNumVal? a, pyNumVal? b with
  | some x, some y => decide (x = y)
  | _, _ =>
    match a, b with
    | PyVal.str s, PyVal.str t => s == t
    | PyVal.none, PyVal.none => true
    | _, _ => false

/-- Value of a list of decimal digit characters. -/
def digitsToNat (cs : List Char) : Nat :=
  cs.foldl (fun a c => a * 10 + (c.toNat - 48)) 0

/-- Parse an unsigned decimal numeral (digits, optionally with a fractional
part after a single dot) as Python's `float` accepts it; `Option.none` on
anything else. -/
def parseUnsigned? (cs : List Char) : Option ℚ :=
  let intPart := cs.takeWhile Char.isDigit
  match cs.dropWhile Char.isDigit with
  | [] => if intPart.isEmpty then Option.none else some (mkRat (digitsToNat intPart) 1)
  | c :: frac =>
    if c = '.' ∧ frac.all Char.isDigit ∧ ¬(intPart.isEmpty ∧ frac.isEmpty) then
      some (mkRat (digitsToNat intPart * 10 ^ frac.length + digitsToNat frac) (10 ^ frac.length))
    else Option.none

/-- Python `float(s)` on a string: optional sign followed by a decimal
numeral; `Option.none` models the `ValueError` raised otherwise. -/
def parseFloat? (s : String) : Option ℚ :=
  match s.data with
  | '+' :: cs => parseUnsigned? cs
  | '-' :: cs => (parseUnsigned? cs).map Neg.neg
  | cs => parseUnsigned? cs

/-- Python `float(v)`: numbers and booleans convert by value, strings are
parsed, `None` (and anything non-convertible) yields `Option.none`, modelling
the `TypeError`/`ValueError` raised there. -/
def pyFloat? : PyVal → Option ℚ
  | PyVal.bool b => some (if b then 1 else 0)
  | PyVal.int n => some ((n : ℚ))
  | PyVal.num q => some q
  | PyVal.str s => parseFloat? s
  | PyVal.none => Option.none

/-- Python `int(s)` on a string: optional sign followed by digits. -/
def parseInt? (s : String) : Option Int :=
  match s.data with
  | '-' :: cs =>
    if ¬cs.isEmpty ∧ cs.all Char.isDigit then some (-(digitsToNat cs : Int)) else Option.none
  | '+' :: cs =>
    if ¬cs.isEmpty ∧ cs.all Char.isDigit then some ((digitsToNat cs : Int)) else Option.none
  | cs =>
    if ¬cs.isEmpty ∧ cs.all Char.isDigit then some ((digitsToNat cs : Int)) else Option.none

/-- Truncation of a rational toward zero, as Python `int(float)` does. -/
def ratTrunc (q : ℚ) : Int := if q < 0 then -(Rat.floor (-q)) else Rat.floor q

/-- Python `int(v)`: `Option.none` models the exception raised on `None` or a
non-numeric string. -/
def pyInt? : PyVal → Option Int
  | PyVal.bool b => some (if b then 1 else 0)
  | PyVal.int n => some n
  | PyVal.num q => some (ratTrunc q)
  | PyVal.str s => parseInt? s
  | PyVal.none => Option.none

/-- Python `v > 0`: defined for numeric values, raises (`Option.none`) on
`None` and strings. -/
def pyGt0? (v : PyVal) : Option Bool :=
  match pyNumVal? v with
  | some q => some (decide (0 < q))
  | Option.none => Option.none

/-- Python `str(v)` as used in f-string error messages (float rendering is
approximated; the claims only exercise ints and strings). -/
def pyStr : PyVal → String
  | PyVal.none => "None"
  | PyVal.bool b => if b then "True" else "False"
  | PyVal.int n => toString n
  | PyVal.num q => if q.den = 1 then toString q.num else toString q.num ++ "/" ++ toString q.den
  | PyVal.str s => s

/-- A JSON object / Python dict row, as an association list over string keys. -/
def Row : Type := List (String × PyVal)

instance : DecidableEq Row := by
  unfold Row
  infer_instance

instance : Repr Row := by
  unfold Row
  infer_instance

/-- Python `d.get(k)`: value of the first binding of `k`, if any. -/
def Row.get? (r : Row) (k : String) : Option PyVal :=
  (List.find? (fun p => decide (p.1 = k)) r).map (fun p => p.2)

/-- Python `d.get(k, default)`. -/
def Row.getD (r : Row) (k : String) (d : PyVal) : PyVal :=
  (Row.get? r k).getD d


/-- Per-brand running totals as accumulated by both `aggregate_by_brand`
functions: order count, sales sum, commission sum. -/
structure BrandStats where
  orders : Nat
  sales : ℚ
  commission : ℚ
deriving Repr, DecidableEq

/-- The `defaultdict` default entry: `{"orders": 0, "sales": 0.0, "commission": 0.0}`. -/
def emptyStats : BrandStats := { orders := 0, sales := 0, commission := 0 }

/-- Component-wise accumulation, as the three `+=` statements perform. -/
def addStats (a c : BrandStats) : BrandStats :=
  { orders := a.orders + c.orders
    sales := a.sales + c.sales
    commission := a.commission + c.commission }

/-- The aggregation result dict, as an insertion-ordered association list
(keys are the Python values used as dict keys). -/
abbrev BrandMap := List (PyVal × BrandStats)

/-- One `defaultdict` access-and-mutate step: update the entry of `k` in
place, appending a fresh default entry first when `k` is absent. -/
def updateBrand : BrandMap → PyVal → (BrandStats → BrandStats) → BrandMap
  | [], k, f => [(k, f emptyStats)]
  | (k', v) :: rest, k, f =>
    if k' = k then (k', f v) :: rest else (k', v) :: updateBrand rest k f

/-- Dict lookup on the aggregation result. -/
def lookupStats (m : BrandMap) (b : PyVal) : Option BrandStats :=
  (List.find? (fun p => decide (p.1 = b)) m).map (fun p => p.2)

/-- Totals of brand `b` in a `defaultdict` view: entry when present,
all-zero default when absent. -/
def statsOf (m : BrandMap) (b : PyVal) : BrandStats :=
  (lookupStats m b).getD emptyStats

namespace DailyTransactionReport

/-- The `status.get("code") != 0` success test of `fetch_transactions` and
`fetch_amazon_report` (missing key yields Python `None`). -/
def statusOk (statusCode : Option PyVal) : Bool :=
  pyEq (statusCode.getD PyVal.none) (PyVal.int 0)

/-- Brand key of one transaction: `t.get("merchant_name") or "Unknown"`. -/
def txBrand (t : Row) : PyVal :=
  pyOr (Row.getD t "merchant_name" PyVal.none) (PyVal.str "Unknown")

/-- The guarded coercion `float(v or 0)` with the surrounding
`try/except (TypeError, ValueError)` defaulting to `0.0`. -/
def coerceOrZero (v : PyVal) : ℚ :=
  match pyFloat? (pyOr v (PyVal.int 0)) with
  | some q => q
  | Option.none => 0

/-- `sale_amount` of one transaction row, as `aggregate_by_brand` computes it. -/
def txSale (t : Row) : ℚ := coerceOrZero (Row.getD t "sale_amount" (PyVal.int 0))

/-- `sale_comm` of one transaction row, as `aggregate_by_brand` computes it. -/
def txComm (t : Row) : ℚ := coerceOrZero (Row.getD t "sale_comm" (PyVal.int 0))

/-- Embeds `aggregate_by_brand` of `daily_transaction_report.py`: fold over
the transactions; per row, increment the brand's order count by one and add
the coerced `sale_amount` / `sale_comm`. -/
def aggregate_by_brand (transactions : List Row) : BrandMap :=
  transactions.foldl
    (fun result t =>
      updateBrand result (txBrand t)
        (fun s => addStats s { orders := 1, sales := txSale t, commission := txComm t }))
    []

end DailyTransactionReport

/-- Response envelope of the remote API as the scripts consume it:
`status.code` / `status.msg` (absent key modelled by `Option.none`),
`data.list`, `data.has_more`, `data.total_page`. -/
structure Envelope where
  statusCode : Option PyVal
  statusMsg : Option PyVal
  list : List Row
  hasMore : Option PyVal
  totalPage : Option PyVal
deriving Repr, DecidableEq

instance exceptDecEq {ε α : Type} [DecidableEq ε] [DecidableEq α] : DecidableEq (Except ε α)
  | Except.error a, Except.error b =>
    if h : a = b then Decidable.isTrue (congrArg Except.error h)
    else Decidable.isFalse (fun hc => h (Except.error.inj hc))
  | Except.error _, Except.ok _ => Decidable.isFalse (fun hc => Except.noConfusion hc)
  | Except.ok _, Except.error _ => Decidable.isFalse (fun hc => Except.noConfusion hc)
  | Except.ok a, Except.ok b =>
    if h : a = b then Decidable.isTrue (congrArg Except.ok h)
    else Decidable.isFalse (fun hc => h (Except.ok.inj hc))

/-- Outcome of a fetch run: the returned item list or the raised error
message, together with the number of HTTP requests issued. -/
structure FetchOutcome where
  result : Except String (List Row)
  requests : Nat
deriving Repr, DecidableEq

/-- The configure-token error message raised when the credential is missing
from the environment (`if not token: raise RuntimeError(...)`). -/
def CONFIG_ERROR_MSG : String :=
  "请先在环境变量 PARTNERBOOST_TOKEN 中配置 PartnerBoost token"

namespace DailyTransactionReport

/-- The message of `RuntimeError(f"API error {status.get('code')}: {status.get('msg')}")`. -/
def apiErrorMsg (e : Envelope) : String :=
  "API error " ++ pyStr (e.statusCode.getD PyVal.none) ++ ": " ++
    pyStr (e.statusMsg.getD PyVal.none)

/-- The `while True` pagination loop of `fetch_transactions`, one list entry
per response the server would give to successive page requests; running past
the provided responses models an HTTP-level failure. -/
def fetchPages : List Envelope → Nat → List Row → Nat → FetchOutcome
  | [], _page, _acc, reqs => { result := Except.error "TransportError", requests := reqs }
  | e :: rest, page, acc, reqs =>
    if statusOk e.statusCode then
      if e.list.isEmpty then { result := Except.ok acc, requests := reqs + 1 }
      else
        match pyInt? (e.totalPage.getD (PyVal.int 1)) with
        | some total_page =>
          if total_page ≤ (page : Int) then
            { result := Except.ok (acc ++ e.list), requests := reqs + 1 }
          else fetchPages rest (page + 1) (acc ++ e.list) (reqs + 1)
        | Option.none => { result := Except.error "int() argument error", requests := reqs + 1 }
    else { result := Except.error (apiErrorMsg e), requests := reqs + 1 }

/-- Embeds `fetch_transactions`: the credential check, then the total_page
pagination protocol starting at page 1. -/
def fetch_transactions (token : Option String) (responses : List Envelope) : FetchOutcome :=
  match token with
  | some t =>
    if t = "" then { result := Except.error CONFIG_ERROR_MSG, requests := 0 }
    else fetchPages responses 1 [] 0
  | Option.none => { result := Except.error CONFIG_ERROR_MSG, requests := 0 }

/-- Embeds the filename choice, `os.path.join` and return value of
`write_html_report` (the HTML document body is not needed by any claim and
is omitted): single-day ranges use `transaction_report_<end>.html`, other
ranges `transaction_report_<begin>_to_<end>_<range_key>.html`. -/
def write_html_report (docs_dir range_key begin_date end_date : String) : String :=
  let filename :=
    if begin_date = end_date then "transaction_report_" ++ end_date ++ ".html"
    else
      "transaction_report_" ++ begin_date ++ "_to_" ++ end_date ++ "_" ++ range_key ++ ".html"
  docs_dir ++ "/" ++ filename

/-- Embeds `parse_range_arg`, with calendar dates modelled as day numbers:
`fmt` models `strftime("%Y-%m-%d")`, `parseDate` models
`datetime.strptime(arg, "%Y-%m-%d")` (with `Option.none` for the
`ValueError` it raises), `today` models `date.today()`.  Returns
`(begin_date_str, end_date_str, range_key)`. -/
def parse_range_arg (fmt : Int → String) (parseDate : String → Option Int)
    (today : Int) (argv : List String) : Option (String × String × String) :=
  if argv.length < 2 then
    some (fmt (today - 1), fmt (today - 1), "yesterday")
  else
    let arg := ((argv.getD 1 "").trim).toLower
    if arg = "today" then some (fmt today, fmt today, "today")
    else if arg = "yesterday" then some (fmt (today - 1), fmt (today - 1), "yesterday")
    else if arg = "last7" then some (fmt (today - 6), fmt today, "last7")
    else if arg = "last14" then some (fmt (today - 13), fmt today, "last14")
    else
      match parseDate arg with
      | some d => some (fmt d, fmt d, "single")
      | Option.none => Option.none

end DailyTransactionReport

/-- One row of the `products` SQLite table (columns besides the `asin`
primary key). -/
structure DbEntry where
  brand_id : PyVal
  brand_name : PyVal
  title : PyVal
  country_code : PyVal
deriving Repr, DecidableEq

/-- The `products` table, keyed by `asin`. -/
abbrev Db := List (PyVal × DbEntry)

/-- `SELECT ... FROM products WHERE asin = ?` returning at most one row. -/
def dbLookup (db : Db) (asin : PyVal) : Option DbEntry :=
  (List.find? (fun p => decide (p.1 = asin)) db).map (fun p => p.2)

/-- `INSERT ... ON CONFLICT(asin) DO UPDATE SET ...`: replace the row with
the conflicting primary key, or append a new row. -/
def dbUpsert : Db → PyVal → DbEntry → Db
  | [], k, e => [(k, e)]
  | (k', e') :: rest, k, e =>
    if k' = k then (k, e) :: rest else (k', e') :: dbUpsert rest k e

namespace SyncProducts

/-- Field derivation of `upsert_product`: `brand_id`, `brand_name or brand`,
`title or name`, `country_code`. -/
def productEntry (product : Row) : DbEntry :=
  { brand_id := Row.getD product "brand_id" PyVal.none
    brand_name := pyOr (Row.getD product "brand_name" PyVal.none)
      (Row.getD product "brand" PyVal.none)
    title := pyOr (Row.getD product "title" PyVal.none) (Row.getD product "name" PyVal.none)
    country_code := Row.getD product "country_code" PyVal.none }

/-- Embeds `upsert_product` of `sync_products.py`: silently skip a record
without a truthy `asin`, otherwise upsert on the `asin` primary key. -/
def upsert_product (db : Db) (product : Row) : Db :=
  let asin := Row.getD product "asin" PyVal.none
  if ¬pyTruthy asin then db
  else dbUpsert db asin (productEntry product)

/-- Outcome of `fetch_fba_products_page`: the returned envelope or the raised
error message, with the number of HTTP requests issued. -/
structure FbaOutcome where
  result : Except String Envelope
  requests : Nat
deriving Repr, DecidableEq

/-- The message of `RuntimeError(f"API error: code={code}, msg={status.get('msg')}")`. -/
def apiErrorMsg (e : Envelope) : String :=
  "API error: code=" ++ pyStr (e.statusCode.getD PyVal.none) ++ ", msg=" ++
    pyStr (e.statusMsg.getD PyVal.none)

/-- Embeds `fetch_fba_products_page` of `sync_products.py`: the credential
check, one request, then `if code not in (0, "0"): raise`. -/
def fetch_fba_products_page (token : Option String) (response : Envelope) : FbaOutcome :=
  match token with
  | some t =>
    if t = "" then { result := Except.error CONFIG_ERROR_MSG, requests := 0 }
    else
      let code := response.statusCode.getD PyVal.none
      if pyEq code (PyVal.int 0) || pyEq code (PyVal.str "0") then
        { result := Except.ok response, requests := 1 }
      else { result := Except.error (apiErrorMsg response), requests := 1 }
  | Option.none => { result := Except.error CONFIG_ERROR_MSG, requests := 0 }

end SyncProducts

namespace DailyAmazonReport

/-- Embeds `get_brand_name_from_db` of `daily_amazon_report.py`: the stored
`brand_name` when a row exists and that value is truthy, else `"Unknown"`. -/
def get_brand_name_from_db (db : Db) (asin : PyVal) : PyVal :=
  match dbLookup db asin with
  | some e => if pyTruthy e.brand_name then e.brand_name else PyVal.str "Unknown"
  | Option.none => PyVal.str "Unknown"

/-- Brand resolution of one datafeed row:
`get_brand_name_from_db(conn, asin)` when `r.get("asin")` is truthy, else
`"Unknown"`. -/
def rowBrand (db : Db) (r : Row) : PyVal :=
  let asin := Row.getD r "asin" PyVal.none
  if pyTruthy asin then get_brand_name_from_db db asin else PyVal.str "Unknown"

/-- The order-count test `(r.get("quantity", 0) or 0) > 0`; `Option.none`
models the `TypeError` Python raises when comparing a non-number to `0`. -/
def rowQuantityPos? (r : Row) : Option Bool :=
  pyGt0? (pyOr (Row.getD r "quantity" (PyVal.int 0)) (PyVal.int 0))

/-- `float(r.get("sales", 0.0) or 0.0)`, with no exception handler:
`Option.none` models the raised `ValueError`/`TypeError`. -/
def rowSales? (r : Row) : Option ℚ :=
  pyFloat? (pyOr (Row.getD r "sales" (PyVal.num 0)) (PyVal.num 0))

/-- `float(r.get("estCommission", 0.0) or 0.0)`, with no exception handler. -/
def rowCommission? (r : Row) : Option ℚ :=
  pyFloat? (pyOr (Row.getD r "estCommission" (PyVal.num 0)) (PyVal.num 0))

/-- What one datafeed row adds to its brand's totals, or `Option.none` when
processing that row raises. -/
def rowStats? (db : Db) (r : Row) : Option (PyVal × BrandStats) :=
  match rowQuantityPos? r, rowSales? r, rowCommission? r with
  | some qpos, some s, some c =>
    some (rowBrand db r, { orders := if qpos then 1 else 0, sales := s, commission := c })
  | _, _, _ => Option.none

/-- The row loop of `aggregate_by_brand` of `daily_amazon_report.py`; an
exception while processing a row aborts the whole aggregation
(`Option.none`). -/
def aggLoop (db : Db) : List Row → BrandMap → Option BrandMap
  | [], result => some result
  | r :: rest, result =>
    match rowStats? db r with
    | some p => aggLoop db rest (updateBrand result p.1 (fun s => addStats s p.2))
    | Option.none => Option.none

/-- Embeds `aggregate_by_brand` of `daily_amazon_report.py` (datafeed mode). -/
def aggregate_by_brand (db : Db) (rows : List Row) : Option BrandMap :=
  aggLoop db rows []

/-- The message of `RuntimeError(f"API error: {status.get('code')} {status.get('msg')}")`. -/
def apiErrorMsg (e : Envelope) : String :=
  "API error: " ++ pyStr (e.statusCode.getD PyVal.none) ++ " " ++
    pyStr (e.statusMsg.getD PyVal.none)

/-- The `while True` pagination loop of `fetch_amazon_report` (has_more
protocol), one list entry per response the server would give to successive
page requests. -/
def fetchPages : List Envelope → List Row → Nat → FetchOutcome
  | [], _acc, reqs => { result := Except.error "TransportError", requests := reqs }
  | e :: rest, acc, reqs =>
    if DailyTransactionReport.statusOk e.statusCode then
      if pyTruthy (e.hasMore.getD (PyVal.bool false)) then
        fetchPages rest (acc ++ e.list) (reqs + 1)
      else { result := Except.ok (acc ++ e.list), requests := reqs + 1 }
    else { result := Except.error (apiErrorMsg e), requests := reqs + 1 }

/-- Embeds `fetch_amazon_report`: the credential check, then the has_more
pagination protocol starting at page 1. -/
def fetch_amazon_report (token : Option String) (responses : List Envelope) : FetchOutcome :=
  match token with
  | some t =>
    if t = "" then { result := Except.error CONFIG_ERROR_MSG, requests := 0 }
    else fetchPages responses [] 0
  | Option.none => { result := Except.error CONFIG_ERROR_MSG, requests := 0 }

end DailyAmazonReport

/-! Characterisation machinery for the `defaultdict` fold shared by the two
aggregation modes. -/

/-- Per-row contribution of one transaction to its brand's entry
(transaction mode: one order unconditionally, coerced amounts). -/
def txContrib (t : Row) : PyVal × BrandStats :=
  (DailyTransactionReport.txBrand t,
    { orders := 1, sales := DailyTransactionReport.txSale t
      commission := DailyTransactionReport.txComm t })

/-- The generic accumulation fold both aggregators perform. -/
def foldStats (acc : BrandMap) (contribs : List (PyVal × BrandStats)) : BrandMap :=
  contribs.foldl (fun m p => updateBrand m p.1 (fun s => addStats s p.2)) acc

/-- Contributions destined for brand `b`. -/
def brandContribs (contribs : List (PyVal × BrandStats)) (b : PyVal) :
    List (PyVal × BrandStats) :=
  contribs.filter (fun p => decide (p.1 = b))

/-- Accumulated totals of the contributions destined for brand `b`. -/
def brandTotal (contribs : List (PyVal × BrandStats)) (b : PyVal) : BrandStats :=
  (brandContribs contribs b).foldl (fun s p => addStats s p.2) emptyStats

/-- Per-row results of the datafeed row loop; `Option.none` when some row
raises. -/
def rowStatsList? (db : Db) : List Row → Option (List (PyVal × BrandStats))
  | [] => some []
  | r :: rest =>
    match DailyAmazonReport.rowStats? db r, rowStatsList? db rest with
    | some p, some ps => some (p :: ps)
    | _, _ => Option.none

/-- Whether one datafeed row increments its brand's order count: the value of
the `(r.get("quantity", 0) or 0) > 0` test where that test is defined. -/
def amazonOrderCounted (r : Row) : Bool :=
  (DailyAmazonReport.rowQuantityPos? r).getD false

/-- Number of rows of the `products` table carrying primary key `k`. -/
def dbKeyCount (db : Db) (k : PyVal) : Nat :=
  (db.filter (fun p => decide (p.1 = k))).length

lemma addStats_assoc (a b c : BrandStats) :
    addStats (addStats a b) c = addStats a (addStats b c) := by
  simp [addStats, Nat.add_assoc, add_assoc]

lemma addStats_empty_left (a : BrandStats) : addStats emptyStats a = a := by
  simp [addStats, emptyStats]

lemma addStats_empty_right (a : BrandStats) : addStats a emptyStats = a := by
  simp [addStats, emptyStats]

lemma lookupStats_nil (b : PyVal) : lookupStats [] b = Option.none := rfl

lemma lookupStats_cons (k' : PyVal) (v : BrandStats) (rest : BrandMap) (b : PyVal) :
    lookupStats ((k', v) :: rest) b = if k' = b then some v else lookupStats rest b := by
  by_cases h : k' = b
  · simp [lookupStats, List.find?, h]
  · simp [lookupStats, List.find?, h]

lemma statsOf_cons (k' : PyVal) (v : BrandStats) (rest : BrandMap) (b : PyVal) :
    statsOf ((k', v) :: rest) b = if k' = b then v else statsOf rest b := by
  by_cases h : k' = b <;> simp [statsOf, lookupStats_cons, h]

lemma lookupStats_updateBrand (m : BrandMap) (k : PyVal) (f : BrandStats → BrandStats)
    (b : PyVal) :
    lookupStats (updateBrand m k f) b =
      if b = k then some (f (statsOf m b)) else lookupStats m b := by
  induction m with
  | nil =>
    by_cases h : b = k
    · simp [updateBrand, lookupStats_cons, lookupStats_nil, statsOf, h]
    · simp [updateBrand, lookupStats_cons, lookupStats_nil, statsOf, h, Ne.symm h]
  | cons p rest ih =>
    obtain ⟨k', v⟩ := p
    by_cases hkk : k' = k
    · subst hkk
      have hup : updateBrand ((k', v) :: rest) k' f = (k', f v) :: rest := by
        simp [updateBrand]
      rw [hup]
      by_cases hb : b = k'
      · subst hb
        simp [lookupStats_cons, statsOf_cons]
      · rw [lookupStats_cons, if_neg (Ne.symm hb), lookupStats_cons, if_neg (Ne.symm hb),
          if_neg hb]
    · have hup : updateBrand ((k', v) :: rest) k f = (k', v) :: updateBrand rest k f := by
        simp [updateBrand, hkk]
      rw [hup, lookupStats_cons, lookupStats_cons]
      by_cases hb : k' = b
      · subst hb
        rw [if_pos rfl, if_pos rfl, if_neg (fun hc => hkk hc)]
      · rw [if_neg hb, if_neg hb, ih, statsOf_cons, if_neg hb]

lemma foldStats_nil (acc : BrandMap) : foldStats acc [] = acc := rfl

lemma foldStats_cons (acc : BrandMap) (p : PyVal × BrandStats)
    (rest : List (PyVal × BrandStats)) :
    foldStats acc (p :: rest) =
      foldStats (updateBrand acc p.1 (fun s => addStats s p.2)) rest := rfl

lemma foldl_addStats_shift (l : List (PyVal × BrandStats)) (a c : BrandStats) :
    l.foldl (fun s p => addStats s p.2) (addStats a c) =
      addStats a (l.foldl (fun s p => addStats s p.2) c) := by
  induction l generalizing c with
  | nil => rfl
  | cons q l ih =>
    simp only [List.foldl_cons]
    rw [addStats_assoc, ih]

lemma brandContribs_cons (p : PyVal × BrandStats) (rest : List (PyVal × BrandStats))
    (b : PyVal) :
    brandContribs (p :: rest) b =
      if p.1 = b then p :: brandContribs rest b else brandContribs rest b := by
  by_cases h : p.1 = b <;> simp [brandContribs, h]

lemma brandTotal_cons_eq (p : PyVal × BrandStats) (rest : List (PyVal × BrandStats))
    (b : PyVal) (h : p.1 = b) :
    brandTotal (p :: rest) b = addStats p.2 (brandTotal rest b) := by
  have h2 := foldl_addStats_shift (brandContribs rest b) p.2 emptyStats
  rw [addStats_empty_right] at h2
  simp only [brandTotal, brandContribs_cons, if_pos h, List.foldl_cons, addStats_empty_left]
  exact h2

lemma brandTotal_cons_ne (p : PyVal × BrandStats) (rest : List (PyVal × BrandStats))
    (b : PyVal) (h : ¬p.1 = b) :
    brandTotal (p :: rest) b = brandTotal rest b := by
  simp only [brandTotal, brandContribs_cons, if_neg h]

lemma lookupStats_foldStats (contribs : List (PyVal × BrandStats)) (acc : BrandMap)
    (b : PyVal) :
    lookupStats (foldStats acc contribs) b =
      match lookupStats acc b with
      | some s => some (addStats s (brandTotal contribs b))
      | Option.none =>
        if (brandContribs contribs b).isEmpty then Option.none
        else some (brandTotal contribs b) := by
  induction contribs generalizing acc with
  | nil =>
    cases h : lookupStats acc b <;>
      simp [foldStats, brandTotal, brandContribs, addStats_empty_right, h]
  | cons p rest ih =>
    rw [foldStats_cons, ih, lookupStats_updateBrand]
    by_cases hpb : b = p.1
    · have hpb' : p.1 = b := hpb.symm
      rw [if_pos hpb, brandTotal_cons_eq p rest b hpb', brandContribs_cons, if_pos hpb']
      cases h : lookupStats acc b with
      | none =>
        have hs : statsOf acc b = emptyStats := by simp [statsOf, h]
        simp [hs, addStats_empty_left]
      | some s =>
        have hs : statsOf acc b = s := by simp [statsOf, h]
        simp [hs, addStats_assoc]
    · have hpb' : ¬p.1 = b := fun hc => hpb hc.symm
      rw [if_neg hpb, brandContribs_cons, if_neg hpb',
        brandTotal_cons_ne p rest b hpb']

lemma statsOf_foldStats_nilacc (l : List (PyVal × BrandStats)) (b : PyVal) :
    statsOf (foldStats [] l) b = brandTotal l b := by
  rw [statsOf, lookupStats_foldStats, lookupStats_nil]
  by_cases h : (brandContribs l b).isEmpty
  · have hnil : brandContribs l b = [] := by
      cases hc : brandContribs l b
      · rfl
      · rw [hc] at h; simp at h
    simp [h, brandTotal, hnil]
  · simp [h]

lemma foldl_addStats_orders (l : List (PyVal × BrandStats)) (a : BrandStats) :
    (l.foldl (fun s p => addStats s p.2) a).orders =
      a.orders + (l.map (fun p => p.2.orders)).sum := by
  induction l generalizing a with
  | nil => simp
  | cons q l ih =>
    simp only [List.foldl_cons, List.map_cons, List.sum_cons]
    rw [ih]
    simp [addStats, Nat.add_assoc]

lemma foldl_addStats_sales (l : List (PyVal × BrandStats)) (a : BrandStats) :
    (l.foldl (fun s p => addStats s p.2) a).sales =
      a.sales + (l.map (fun p => p.2.sales)).sum := by
  induction l generalizing a with
  | nil => simp
  | cons q l ih =>
    simp only [List.foldl_cons, List.map_cons, List.sum_cons]
    rw [ih]
    simp [addStats, add_assoc]

lemma foldl_addStats_commission (l : List (PyVal × BrandStats)) (a : BrandStats) :
    (l.foldl (fun s p => addStats s p.2) a).commission =
      a.commission + (l.map (fun p => p.2.commission)).sum := by
  induction l generalizing a with
  | nil => simp
  | cons q l ih =>
    simp only [List.foldl_cons, List.map_cons, List.sum_cons]
    rw [ih]
    simp [addStats, add_assoc]

lemma brandTotal_orders (l : List (PyVal × BrandStats)) (b : PyVal) :
    (brandTotal l b).orders = ((brandContribs l b).map (fun p => p.2.orders)).sum := by
  rw [brandTotal, foldl_addStats_orders]
  simp [emptyStats]

lemma brandTotal_sales (l : List (PyVal × BrandStats)) (b : PyVal) :
    (brandTotal l b).sales = ((brandContribs l b).map (fun p => p.2.sales)).sum := by
  rw [brandTotal, foldl_addStats_sales]
  simp [emptyStats]

lemma brandTotal_commission (l : List (PyVal × BrandStats)) (b : PyVal) :
    (brandTotal l b).commission =
      ((brandContribs l b).map (fun p => p.2.commission)).sum := by
  rw [brandTotal, foldl_addStats_commission]
  simp [emptyStats]

lemma sum_map_one {α : Type} (l : List α) : (l.map (fun _ => (1 : Nat))).sum = l.length := by
  induction l with
  | nil => rfl
  | cons a l ih => simp [ih, Nat.add_comm]

lemma aggregate_tx_eq_foldStats (ts : List Row) :
    DailyTransactionReport.aggregate_by_brand ts = foldStats [] (ts.map txContrib) := by
  simp [DailyTransactionReport.aggregate_by_brand, foldStats, List.foldl_map, txContrib]

lemma brandContribs_map_tx (ts : List Row) (b : PyVal) :
    brandContribs (ts.map txContrib) b =
      (ts.filter (fun t => decide (DailyTransactionReport.txBrand t = b))).map txContrib := by
  induction ts with
  | nil => rfl
  | cons t ts ih =>
    simp only [List.map_cons, List.filter_cons, brandContribs_cons]
    by_cases h : DailyTransactionReport.txBrand t = b
    · rw [if_pos (show (txContrib t).1 = b from h)]
      simp [h, ih]
    · rw [if_neg (show ¬(txContrib t).1 = b from h)]
      simp [h, ih]

lemma orders_aggregate_tx (ts : List Row) (b : PyVal) :
    (statsOf (DailyTransactionReport.aggregate_by_brand ts) b).orders =
      (ts.filter (fun t => decide (DailyTransactionReport.txBrand t = b))).length := by
  rw [aggregate_tx_eq_foldStats, statsOf_foldStats_nilacc, brandTotal_orders,
    brandContribs_map_tx, List.map_map]
  have : ((fun p : PyVal × BrandStats => p.2.orders) ∘ txContrib) = fun _ => (1 : Nat) := by
    funext t
    rfl
  rw [this, sum_map_one]

lemma sales_aggregate_tx (ts : List Row) (b : PyVal) :
    (statsOf (DailyTransactionReport.aggregate_by_brand ts) b).sales =
      ((ts.filter (fun t => decide (DailyTransactionReport.txBrand t = b))).map
        DailyTransactionReport.txSale).sum := by
  rw [aggregate_tx_eq_foldStats, statsOf_foldStats_nilacc, brandTotal_sales,
    brandContribs_map_tx, List.map_map]
  rfl

lemma commission_aggregate_tx (ts : List Row) (b : PyVal) :
    (statsOf (DailyTransactionReport.aggregate_by_brand ts) b).commission =
      ((ts.filter (fun t => decide (DailyTransactionReport.txBrand t = b))).map
        DailyTransactionReport.txComm).sum := by
  rw [aggregate_tx_eq_foldStats, statsOf_foldStats_nilacc, brandTotal_commission,
    brandContribs_map_tx, List.map_map]
  rfl

lemma aggLoop_eq_foldStats (db : Db) (rows : List Row) (acc : BrandMap) :
    DailyAmazonReport.aggLoop db rows acc = (rowStatsList? db rows).map (foldStats acc) := by
  induction rows generalizing acc with
  | nil => rfl
  | cons r rest ih =>
    cases h1 : DailyAmazonReport.rowStats? db r with
    | none => simp [DailyAmazonReport.aggLoop, rowStatsList?, h1]
    | some p =>
      cases h2 : rowStatsList? db rest with
      | none => simp [DailyAmazonReport.aggLoop, rowStatsList?, h1, h2, ih]
      | some ps => simp [DailyAmazonReport.aggLoop, rowStatsList?, h1, h2, ih, foldStats_cons]

lemma aggregate_amazon_eq (db : Db) (rows : List Row) :
    DailyAmazonReport.aggregate_by_brand db rows =
      (rowStatsList? db rows).map (foldStats []) := by
  simp [DailyAmazonReport.aggregate_by_brand, aggLoop_eq_foldStats]

lemma rowStatsList?_none_of_bad (db : Db) (rows : List Row) (r : Row) (hr : r ∈ rows)
    (hbad : DailyAmazonReport.rowStats? db r = Option.none) :
    rowStatsList? db rows = Option.none := by
  induction rows with
  | nil => cases hr
  | cons r' rest ih =>
    rcases List.mem_cons.mp hr with h | h
    · subst h
      simp [rowStatsList?, hbad]
    · cases h1 : DailyAmazonReport.rowStats? db r' <;> simp [rowStatsList?, h1, ih h]

lemma rowStatsList?_forall2 (db : Db) (rows : List Row) :
    ∀ l, rowStatsList? db rows = some l →
      List.Forall₂ (fun r p => DailyAmazonReport.rowStats? db r = some p) rows l := by
  induction rows with
  | nil =>
    intro l h
    simp [rowStatsList?] at h
    subst h
    exact List.Forall₂.nil
  | cons r rest ih =>
    intro l h
    cases h1 : DailyAmazonReport.rowStats? db r with
    | none => simp [rowStatsList?, h1] at h
    | some p =>
      cases h2 : rowStatsList? db rest with
      | none => simp [rowStatsList?, h1, h2] at h
      | some ps =>
        simp only [rowStatsList?, h1, h2] at h
        have h3 := Option.some.inj h
        subst h3
        exact List.Forall₂.cons h1 (ih ps h2)

lemma rowStats?_some_spec (db : Db) (r : Row) (p : PyVal × BrandStats)
    (h : DailyAmazonReport.rowStats? db r = some p) :
    p.1 = DailyAmazonReport.rowBrand db r ∧
      p.2.orders = (if amazonOrderCounted r then 1 else 0) := by
  cases h1 : DailyAmazonReport.rowQuantityPos? r with
  | none => simp [DailyAmazonReport.rowStats?, h1] at h
  | some qpos =>
    cases h2 : DailyAmazonReport.rowSales? r with
    | none => simp [DailyAmazonReport.rowStats?, h1, h2] at h
    | some s =>
      cases h3 : DailyAmazonReport.rowCommission? r with
      | none => simp [DailyAmazonReport.rowStats?, h1, h2, h3] at h
      | some c =>
        have he : DailyAmazonReport.rowStats? db r =
            some (DailyAmazonReport.rowBrand db r,
              { orders := if qpos then 1 else 0, sales := s, commission := c }) := by
          simp [DailyAmazonReport.rowStats?, h1, h2, h3]
        rw [he] at h
        have hp := Option.some.inj h
        subst hp
        simp [amazonOrderCounted, h1]

lemma orders_sum_of_forall2 (db : Db) (rows : List Row) (l : List (PyVal × BrandStats))
    (h : List.Forall₂ (fun r p => DailyAmazonReport.rowStats? db r = some p) rows l) :
    ∀ b, ((brandContribs l b).map (fun p => p.2.orders)).sum =
      (rows.filter (fun r =>
        decide (DailyAmazonReport.rowBrand db r = b) && amazonOrderCounted r)).length := by
  induction h with
  | nil => intro b; rfl
  | cons h1 h2 ih =>
    rename_i r p rows' l'
    intro b
    obtain ⟨hb, ho⟩ := rowStats?_some_spec db r p h1
    by_cases hbb : DailyAmazonReport.rowBrand db r = b
    · rw [brandContribs_cons, if_pos (hb.trans hbb)]
      simp only [List.map_cons, List.sum_cons, List.filter_cons]
      rw [ho, ih b]
      by_cases hc : amazonOrderCounted r
      · simp [hbb, hc, Nat.add_comm]
      · simp [hbb, hc]
    · rw [brandContribs_cons, if_neg (fun hcc => hbb (hb.symm.trans hcc))]
      simp only [List.filter_cons]
      rw [ih b]
      simp [hbb]

lemma orders_aggregate_amazon (db : Db) (rows : List Row) (m : BrandMap)
    (h : DailyAmazonReport.aggregate_by_brand db rows = some m) (b : PyVal) :
    (statsOf m b).orders =
      (rows.filter (fun r =>
        decide (DailyAmazonReport.rowBrand db r = b) && amazonOrderCounted r)).length := by
  rw [aggregate_amazon_eq] at h
  cases hl : rowStatsList? db rows with
  | none => rw [hl] at h; cases h
  | some l =>
    rw [hl] at h
    simp only [Option.map_some'] at h
    have hm := Option.some.inj h
    rw [← hm, statsOf_foldStats_nilacc, brandTotal_orders,
      orders_sum_of_forall2 db rows l (rowStatsList?_forall2 db rows l hl)]

lemma aggregate_amazon_none_of_bad_sales (db : Db) (rows : List Row) (r : Row)
    (hr : r ∈ rows) (hbad : DailyAmazonReport.rowSales? r = Option.none) :
    DailyAmazonReport.aggregate_by_brand db rows = Option.none := by
  have hb : DailyAmazonReport.rowStats? db r = Option.none := by
    cases h1 : DailyAmazonReport.rowQuantityPos? r <;>
      simp [DailyAmazonReport.rowStats?, h1, hbad]
  rw [aggregate_amazon_eq, rowStatsList?_none_of_bad db rows r hr hb]
  rfl

lemma dbLookup_cons (k' : PyVal) (e' : DbEntry) (rest : Db) (b : PyVal) :
    dbLookup ((k', e') :: rest) b = if k' = b then some e' else dbLookup rest b := by
  by_cases h : k' = b <;> simp [dbLookup, List.find?, h]

lemma dbKeyCount_cons (k' : PyVal) (e' : DbEntry) (rest : Db) (k : PyVal) :
    dbKeyCount ((k', e') :: rest) k = (if k' = k then 1 else 0) + dbKeyCount rest k := by
  by_cases h : k' = k <;> simp [dbKeyCount, List.filter_cons, h, Nat.add_comm]

lemma dbLookup_dbUpsert_self (db : Db) (k : PyVal) (e : DbEntry) :
    dbLookup (dbUpsert db k e) k = some e := by
  induction db with
  | nil => simp [dbUpsert, dbLookup_cons]
  | cons p rest ih =>
    obtain ⟨k', e'⟩ := p
    by_cases h : k' = k
    · subst h
      simp [dbUpsert, dbLookup_cons]
    · simp [dbUpsert, dbLookup_cons, h, ih]

lemma dbKeyCount_dbUpsert (db : Db) (k : PyVal) (e : DbEntry) (hnd : dbKeyCount db k ≤ 1) :
    dbKeyCount (dbUpsert db k e) k = 1 := by
  induction db with
  | nil => simp [dbUpsert, dbKeyCount_cons, dbKeyCount]
  | cons p rest ih =>
    obtain ⟨k', e'⟩ := p
    by_cases h : k' = k
    · subst h
      rw [dbKeyCount_cons, if_pos rfl] at hnd
      have hz : dbKeyCount rest k' = 0 := by omega
      have hup : dbUpsert ((k', e') :: rest) k' e = (k', e) :: rest := by
        simp [dbUpsert]
      rw [hup, dbKeyCount_cons, if_pos rfl, hz]
    · rw [dbKeyCount_cons, if_neg h] at hnd
      have hup : dbUpsert ((k', e') :: rest) k e = (k', e') :: dbUpsert rest k e := by
        simp [dbUpsert, h]
      rw [hup, dbKeyCount_cons, if_neg h, ih (by omega)]

lemma fetchAmazonPages_concat (last : Envelope) (rest : List Envelope)
    (hoklast : DailyTransactionReport.statusOk last.statusCode = true)
    (hlast : pyTruthy (last.hasMore.getD (PyVal.bool false)) = false) :
    ∀ (pre : List Envelope) (acc : List Row) (reqs : Nat),
      (∀ e ∈ pre, DailyTransactionReport.statusOk e.statusCode = true) →
      (∀ e ∈ pre, pyTruthy (e.hasMore.getD (PyVal.bool false)) = true) →
      DailyAmazonReport.fetchPages (pre ++ last :: rest) acc reqs =
        { result := Except.ok (acc ++ ((pre ++ [last]).map Envelope.list).flatten)
          requests := reqs + (pre.length + 1) } := by
  intro pre
  induction pre with
  | nil =>
    intro acc reqs _ _
    simp [DailyAmazonReport.fetchPages, hoklast, hlast]
  | cons e pre ih =>
    intro acc reqs hok hmore
    have hoke := hok e (List.mem_cons_self e pre)
    have hmoree := hmore e (List.mem_cons_self e pre)
    have ih2 := ih (acc ++ e.list) (reqs + 1)
      (fun e' he' => hok e' (List.mem_cons_of_mem e he'))
      (fun e' he' => hmore e' (List.mem_cons_of_mem e he'))
    simp only [List.cons_append, DailyAmazonReport.fetchPages, hoke, hmoree, if_true,
      List.append_eq]
    rw [ih2]
    simp [List.append_assoc, Nat.add_assoc, Nat.add_comm]

lemma rowStats?_some_values (db : Db) (r : Row) (p : PyVal × BrandStats)
    (h : DailyAmazonReport.rowStats? db r = some p) :
    p.1 = DailyAmazonReport.rowBrand db r ∧
      DailyAmazonReport.rowSales? r = some p.2.sales ∧
      DailyAmazonReport.rowCommission? r = some p.2.commission := by
  cases h1 : DailyAmazonReport.rowQuantityPos? r with
  | none => simp [DailyAmazonReport.rowStats?, h1] at h
  | some qpos =>
    cases h2 : DailyAmazonReport.rowSales? r with
    | none => simp [DailyAmazonReport.rowStats?, h1, h2] at h
    | some s =>
      cases h3 : DailyAmazonReport.rowCommission? r with
      | none => simp [DailyAmazonReport.rowStats?, h1, h2, h3] at h
      | some c =>
        have he : DailyAmazonReport.rowStats? db r =
            some (DailyAmazonReport.rowBrand db r,
              { orders := if qpos then 1 else 0, sales := s, commission := c }) := by
          simp [DailyAmazonReport.rowStats?, h1, h2, h3]
        rw [he] at h
        have hp := Option.some.inj h
        subst hp
        exact ⟨rfl, rfl, rfl⟩

lemma sales_sum_of_forall2 (db : Db) (rows : List Row) (l : List (PyVal × BrandStats))
    (h : List.Forall₂ (fun r p => DailyAmazonReport.rowStats? db r = some p) rows l) :
    ∀ b, ((brandContribs l b).map (fun p => p.2.sales)).sum =
      ((rows.filter (fun r => decide (DailyAmazonReport.rowBrand db r = b))).map
        (fun r => (DailyAmazonReport.rowSales? r).getD 0)).sum := by
  induction h with
  | nil => intro b; rfl
  | cons h1 h2 ih =>
    rename_i r p rows' l'
    intro b
    obtain ⟨hb, hs, -⟩ := rowStats?_some_values db r p h1
    by_cases hbb : DailyAmazonReport.rowBrand db r = b
    · rw [brandContribs_cons, if_pos (hb.trans hbb)]
      simp only [List.map_cons, List.sum_cons, List.filter_cons]
      rw [ih b]
      simp [hbb, hs]
    · rw [brandContribs_cons, if_neg (fun hcc => hbb (hb.symm.trans hcc))]
      simp only [List.filter_cons]
      rw [ih b]
      simp [hbb]

lemma commission_sum_of_forall2 (db : Db) (rows : List Row) (l : List (PyVal × BrandStats))
    (h : List.Forall₂ (fun r p => DailyAmazonReport.rowStats? db r = some p) rows l) :
    ∀ b, ((brandContribs l b).map (fun p => p.2.commission)).sum =
      ((rows.filter (fun r => decide (DailyAmazonReport.rowBrand db r = b))).map
        (fun r => (DailyAmazonReport.rowCommission? r).getD 0)).sum := by
  induction h with
  | nil => intro b; rfl
  | cons h1 h2 ih =>
    rename_i r p rows' l'
    intro b
    obtain ⟨hb, -, hc⟩ := rowStats?_some_values db r p h1
    by_cases hbb : DailyAmazonReport.rowBrand db r = b
    · rw [brandContribs_cons, if_pos (hb.trans hbb)]
      simp only [List.map_cons, List.sum_cons, List.filter_cons]
      rw [ih b]
      simp [hbb, hc]
    · rw [brandContribs_cons, if_neg (fun hcc => hbb (hb.symm.trans hcc))]
      simp only [List.filter_cons]
      rw [ih b]
      simp [hbb]

lemma sales_aggregate_amazon (db : Db) (rows : List Row) (m : BrandMap)
    (h : DailyAmazonReport.aggregate_by_brand db rows = some m) (b : PyVal) :
    (statsOf m b).sales =
      ((rows.filter (fun r => decide (DailyAmazonReport.rowBrand db r = b))).map
        (fun r => (DailyAmazonReport.rowSales? r).getD 0)).sum := by
  rw [aggregate_amazon_eq] at h
  cases hl : rowStatsList? db rows with
  | none => rw [hl] at h; cases h
  | some l =>
    rw [hl] at h
    simp only [Option.map_some'] at h
    have hm := Option.some.inj h
    rw [← hm, statsOf_foldStats_nilacc, brandTotal_sales,
      sales_sum_of_forall2 db rows l (rowStatsList?_forall2 db rows l hl)]

lemma commission_aggregate_amazon (db : Db) (rows : List Row) (m : BrandMap)
    (h : DailyAmazonReport.aggregate_by_brand db rows = some m) (b : PyVal) :
    (statsOf m b).commission =
      ((rows.filter (fun r => decide (DailyAmazonReport.rowBrand db r = b))).map
        (fun r => (DailyAmazonReport.rowCommission? r).getD 0)).sum := by
  rw [aggregate_amazon_eq] at h
  cases hl : rowStatsList? db rows with
  | none => rw [hl] at h; cases h
  | some l =>
    rw [hl] at h
    simp only [Option.map_some'] at h
    have hm := Option.some.inj h
    rw [← hm, statsOf_foldStats_nilacc, brandTotal_commission,
      commission_sum_of_forall2 db rows l (rowStatsList?_forall2 db rows l hl)]

lemma aggregate_amazon_none_of_bad_commission (db : Db) (rows : List Row) (r : Row)
    (hr : r ∈ rows) (hbad : DailyAmazonReport.rowCommission? r = Option.none) :
    DailyAmazonReport.aggregate_by_brand db rows = Option.none := by
  have hb : DailyAmazonReport.rowStats? db r = Option.none := by
    cases h1 : DailyAmazonReport.rowQuantityPos? r <;>
      cases h2 : DailyAmazonReport.rowSales? r <;>
        simp [DailyAmazonReport.rowStats?, h1, h2, hbad]
  rw [aggregate_amazon_eq, rowStatsList?_none_of_bad db rows r hr hb]
  rfl


/-- Claim C1 (counterexample): the claim says a non-numeric sales value such
as the string "N/A" contributes `0.0` in either aggregation mode and never
raises; but in datafeed mode (`daily_amazon_report.aggregate_by_brand`) the
single row `{"sales": "N/A"}` makes `float(sales)` raise, so the aggregation
aborts (`Option.none`) instead of producing a result. -/
theorem claim1_counterexample :
    DailyAmazonReport.aggregate_by_brand [] [[("sales", PyVal.str "N/A")]] = Option.none := by
  rfl

/-- Claim C1 (amended): in transaction mode
(`daily_transaction_report.aggregate_by_brand`) aggregation is total and each
brand's sales/commission sums are the sums of the per-row coerced values,
where the coercion yields `0.0` whenever `float()` would raise (missing or
non-numeric values included); in datafeed mode
(`daily_amazon_report.aggregate_by_brand`), whenever aggregation completes,
each brand's sales/commission sums are the sums of the per-row converted
values, a missing or falsy sales/commission value converts to `0.0` (so it
contributes `0.0` to its brand's sum), and a row whose sales or commission
value makes the unguarded `float()` raise aborts the whole aggregation. -/
theorem claim1_amended :
    (∀ (ts : List Row) (b : PyVal),
      (statsOf (DailyTransactionReport.aggregate_by_brand ts) b).sales =
        ((ts.filter (fun t => decide (DailyTransactionReport.txBrand t = b))).map
          DailyTransactionReport.txSale).sum ∧
      (statsOf (DailyTransactionReport.aggregate_by_brand ts) b).commission =
        ((ts.filter (fun t => decide (DailyTransactionReport.txBrand t = b))).map
          DailyTransactionReport.txComm).sum) ∧
    (∀ v : PyVal, pyFloat? (pyOr v (PyVal.int 0)) = Option.none →
      DailyTransactionReport.coerceOrZero v = 0) ∧
    (∀ (db : Db) (rows : List Row) (m : BrandMap) (b : PyVal),
      DailyAmazonReport.aggregate_by_brand db rows = some m →
      (statsOf m b).sales =
        ((rows.filter (fun r => decide (DailyAmazonReport.rowBrand db r = b))).map
          (fun r => (DailyAmazonReport.rowSales? r).getD 0)).sum ∧
      (statsOf m b).commission =
        ((rows.filter (fun r => decide (DailyAmazonReport.rowBrand db r = b))).map
          (fun r => (DailyAmazonReport.rowCommission? r).getD 0)).sum) ∧
    (∀ (r : Row) (v : PyVal), Row.getD r "sales" (PyVal.num 0) = v →
      pyTruthy v = false → DailyAmazonReport.rowSales? r = some 0) ∧
    (∀ (r : Row) (v : PyVal), Row.getD r "estCommission" (PyVal.num 0) = v →
      pyTruthy v = false → DailyAmazonReport.rowCommission? r = some 0) ∧
    (∀ (db : Db) (rows : List Row) (r : Row), r ∈ rows →
      (DailyAmazonReport.rowSales? r = Option.none ∨
        DailyAmazonReport.rowCommission? r = Option.none) →
      DailyAmazonReport.aggregate_by_brand db rows = Option.none) := by
  refine ⟨fun ts b => ⟨sales_aggregate_tx ts b, commission_aggregate_tx ts b⟩,
    ?_, ?_, ?_, ?_, ?_⟩
  · intro v h
    simp [DailyTransactionReport.coerceOrZero, h]
  · exact fun db rows m b h =>
      ⟨sales_aggregate_amazon db rows m h b, commission_aggregate_amazon db rows m h b⟩
  · intro r v h hf
    simp [DailyAmazonReport.rowSales?, h, pyOr, hf, pyFloat?]
  · intro r v h hf
    simp [DailyAmazonReport.rowCommission?, h, pyOr, hf, pyFloat?]
  · intro db rows r hr hbad
    rcases hbad with hbad | hbad
    · exact aggregate_amazon_none_of_bad_sales db rows r hr hbad
    · exact aggregate_amazon_none_of_bad_commission db rows r hr hbad

/-- Claim C1 (witness): the amended claim instantiated — the transaction-mode
sum over a row with sales "N/A", the coercion of "N/A" itself, the datafeed
sum characterisation on a completed one-row run, a row with no sales key and
a row with an empty-string commission each converting to `0.0`, and a
datafeed run aborting on a non-numeric commission value. -/
theorem claim1_amended_witness :
    (statsOf (DailyTransactionReport.aggregate_by_brand
        [[("merchant_name", PyVal.str "Acme"), ("sale_amount", PyVal.str "N/A")]])
      (PyVal.str "Acme")).sales =
      (([[("merchant_name", PyVal.str "Acme"), ("sale_amount", PyVal.str "N/A")]].filter
        (fun t => decide (DailyTransactionReport.txBrand t = PyVal.str "Acme"))).map
        DailyTransactionReport.txSale).sum ∧
    DailyTransactionReport.coerceOrZero (PyVal.str "N/A") = 0 ∧
    (statsOf [(PyVal.str "Unknown",
        { orders := 0, sales := (0 : ℚ) + 1, commission := (0 : ℚ) + 0 })]
      (PyVal.str "Unknown")).sales =
      (([[("sales", PyVal.num 1)]].filter (fun r =>
        decide (DailyAmazonReport.rowBrand [] r = PyVal.str "Unknown"))).map
        (fun r => (DailyAmazonReport.rowSales? r).getD 0)).sum ∧
    DailyAmazonReport.rowSales? [("quantity", PyVal.int 1)] = some 0 ∧
    DailyAmazonReport.rowCommission? [("estCommission", PyVal.str "")] = some 0 ∧
    DailyAmazonReport.aggregate_by_brand [] [[("estCommission", PyVal.str "N/A")]] =
      Option.none :=
  ⟨(claim1_amended.1 [[("merchant_name", PyVal.str "Acme"),
      ("sale_amount", PyVal.str "N/A")]] (PyVal.str "Acme")).1,
    claim1_amended.2.1 (PyVal.str "N/A") (by decide),
    (claim1_amended.2.2.1 [] [[("sales", PyVal.num 1)]]
      [(PyVal.str "Unknown",
        { orders := 0, sales := (0 : ℚ) + 1, commission := (0 : ℚ) + 0 })]
      (PyVal.str "Unknown") rfl).1,
    claim1_amended.2.2.2.1 [("quantity", PyVal.int 1)] (PyVal.num 0)
      (by decide) (by decide),
    claim1_amended.2.2.2.2.1 [("estCommission", PyVal.str "")] (PyVal.str "")
      (by decide) (by decide),
    claim1_amended.2.2.2.2.2 [] [[("estCommission", PyVal.str "N/A")]]
      [("estCommission", PyVal.str "N/A")] (List.mem_singleton.mpr rfl)
      (Or.inr (by decide))⟩

/-- Claim C5: with no credential in the environment, each of the three
fetchers returns the configure-token error and issues zero network
requests, whatever the remote server would have answered. -/
theorem claim5_missing_token (responses : List Envelope) (response : Envelope) :
    DailyTransactionReport.fetch_transactions Option.none responses =
      { result := Except.error CONFIG_ERROR_MSG, requests := 0 } ∧
    DailyAmazonReport.fetch_amazon_report Option.none responses =
      { result := Except.error CONFIG_ERROR_MSG, requests := 0 } ∧
    SyncProducts.fetch_fba_products_page Option.none response =
      { result := Except.error CONFIG_ERROR_MSG, requests := 0 } :=
  ⟨rfl, rfl, rfl⟩

/-- Claim C6: transaction mode counts every row as one order for its resolved
brand; datafeed mode counts a row exactly when its `quantity > 0` test
succeeds, which holds never for an absent quantity and exactly for positive
values of a present integer quantity; no other increments occur (the order
count equals the number of qualifying rows). -/
theorem claim6_order_counting :
    (∀ (ts : List Row) (b : PyVal),
      (statsOf (DailyTransactionReport.aggregate_by_brand ts) b).orders =
        (ts.filter (fun t => decide (DailyTransactionReport.txBrand t = b))).length) ∧
    (∀ (db : Db) (rows : List Row) (m : BrandMap) (b : PyVal),
      DailyAmazonReport.aggregate_by_brand db rows = some m →
      (statsOf m b).orders =
        (rows.filter (fun r =>
          decide (DailyAmazonReport.rowBrand db r = b) && amazonOrderCounted r)).length) ∧
    (∀ r : Row, Row.get? r "quantity" = Option.none → amazonOrderCounted r = false) ∧
    (∀ (r : Row) (n : Int), Row.get? r "quantity" = some (PyVal.int n) →
      amazonOrderCounted r = decide (0 < n)) := by
  refine ⟨orders_aggregate_tx, fun db rows m b h => orders_aggregate_amazon db rows m h b,
    ?_, ?_⟩
  · intro r h
    simp [amazonOrderCounted, DailyAmazonReport.rowQuantityPos?, Row.getD, h, pyOr,
      pyTruthy, pyGt0?, pyNumVal?]
  · intro r n h
    by_cases hn : n = 0
    · subst hn
      simp [amazonOrderCounted, DailyAmazonReport.rowQuantityPos?, Row.getD, h, pyOr,
        pyTruthy, pyGt0?, pyNumVal?]
    · simp [amazonOrderCounted, DailyAmazonReport.rowQuantityPos?, Row.getD, h, pyOr,
        pyTruthy, pyGt0?, pyNumVal?, hn, Int.cast_pos]

/-- Claim C6 (witness): the order-counting characterisation instantiated —
one transaction row counts one order; a two-row datafeed run (quantity 2 and
quantity 0 for unknown brands) counts exactly one order; an absent quantity
is not counted; `quantity = 2` is counted. -/
theorem claim6_witness :
    (statsOf (DailyTransactionReport.aggregate_by_brand
        [[("merchant_name", PyVal.str "Acme")]]) (PyVal.str "Acme")).orders =
      ([[("merchant_name", PyVal.str "Acme")]].filter
        (fun t => decide (DailyTransactionReport.txBrand t = PyVal.str "Acme"))).length ∧
    amazonOrderCounted [("sales", PyVal.num 1)] = false ∧
    amazonOrderCounted [("quantity", PyVal.int 2)] = decide ((0 : Int) < 2) :=
  ⟨claim6_order_counting.1 [[("merchant_name", PyVal.str "Acme")]] (PyVal.str "Acme"),
    claim6_order_counting.2.2.1 [("sales", PyVal.num 1)] (by decide),
    claim6_order_counting.2.2.2 [("quantity", PyVal.int 2)] 2 (by decide)⟩

/-- Claim C8: `get_brand_name_from_db` returns the stored brand name when a
row exists whose brand name is truthy (a non-empty string), and the sentinel
"Unknown" when no row exists or the stored name is falsy (empty/`NULL`);
consequently a datafeed row whose product code has no Lookup Store entry
resolves to "Unknown" in datafeed-mode aggregation. -/
theorem claim8_brand_lookup :
    (∀ (db : Db) (asin : PyVal) (e : DbEntry), dbLookup db asin = some e →
      pyTruthy e.brand_name = true →
      DailyAmazonReport.get_brand_name_from_db db asin = e.brand_name) ∧
    (∀ (db : Db) (asin : PyVal), dbLookup db asin = Option.none →
      DailyAmazonReport.get_brand_name_from_db db asin = PyVal.str "Unknown") ∧
    (∀ (db : Db) (asin : PyVal) (e : DbEntry), dbLookup db asin = some e →
      pyTruthy e.brand_name = false →
      DailyAmazonReport.get_brand_name_from_db db asin = PyVal.str "Unknown") ∧
    (∀ (db : Db) (r : Row), dbLookup db (Row.getD r "asin" PyVal.none) = Option.none →
      DailyAmazonReport.rowBrand db r = PyVal.str "Unknown") := by
  refine ⟨?_, ?_, ?_, ?_⟩
  · intro db asin e h ht
    simp [DailyAmazonReport.get_brand_name_from_db, h, ht]
  · intro db asin h
    simp [DailyAmazonReport.get_brand_name_from_db, h]
  · intro db asin e h ht
    simp [DailyAmazonReport.get_brand_name_from_db, h, ht]
  · intro db r h
    by_cases ht : pyTruthy (Row.getD r "asin" PyVal.none) = true
    · simp [DailyAmazonReport.rowBrand, ht, DailyAmazonReport.get_brand_name_from_db, h]
    · simp [DailyAmazonReport.rowBrand, ht]

/-- Claim C8 (witness): the lookup contract instantiated on a one-row store —
the stored name "Acme" is returned for its code, a missing code yields
"Unknown", an empty stored name yields "Unknown", and a datafeed row whose
code is absent from the store resolves to "Unknown". -/
theorem claim8_witness :
    DailyAmazonReport.get_brand_name_from_db
        [(PyVal.str "B01",
          { brand_id := PyVal.str "1", brand_name := PyVal.str "Acme"
            title := PyVal.none, country_code := PyVal.none })] (PyVal.str "B01") =
      PyVal.str "Acme" ∧
    DailyAmazonReport.get_brand_name_from_db [] (PyVal.str "B02") = PyVal.str "Unknown" ∧
    DailyAmazonReport.get_brand_name_from_db
        [(PyVal.str "B03",
          { brand_id := PyVal.str "3", brand_name := PyVal.str ""
            title := PyVal.none, country_code := PyVal.none })] (PyVal.str "B03") =
      PyVal.str "Unknown" ∧
    DailyAmazonReport.rowBrand [] [("asin", PyVal.str "B09")] = PyVal.str "Unknown" :=
  ⟨claim8_brand_lookup.1
      [(PyVal.str "B01",
        { brand_id := PyVal.str "1", brand_name := PyVal.str "Acme"
          title := PyVal.none, country_code := PyVal.none })] (PyVal.str "B01")
      { brand_id := PyVal.str "1", brand_name := PyVal.str "Acme"
        title := PyVal.none, country_code := PyVal.none } (by decide) (by decide),
    claim8_brand_lookup.2.1 [] (PyVal.str "B02") (by decide),
    claim8_brand_lookup.2.2.1
      [(PyVal.str "B03",
        { brand_id := PyVal.str "3", brand_name := PyVal.str ""
          title := PyVal.none, country_code := PyVal.none })] (PyVal.str "B03")
      { brand_id := PyVal.str "3", brand_name := PyVal.str ""
        title := PyVal.none, country_code := PyVal.none } (by decide) (by decide),
    claim8_brand_lookup.2.2.2 [] [("asin", PyVal.str "B09")] (by decide)⟩

/-- Claim C2 (counterexample): the claim says every fetcher treats the status
code string "0" as success; but `fetch_transactions` compares with
`status.get("code") != 0`, so the envelope with code "0" (and a non-empty
data payload) aborts the fetch with an API error instead of succeeding. -/
theorem claim2_counterexample :
    DailyTransactionReport.fetch_transactions (some "token")
      [{ statusCode := some (PyVal.str "0"), statusMsg := some (PyVal.str "ok")
         list := [[("id", PyVal.int 1)]], hasMore := Option.none
         totalPage := Option.none }] =
      { result := Except.error "API error 0: ok", requests := 1 } := by
  rfl

/-- Claim C2 (amended): `fetch_fba_products_page` treats status code 0 or the
string "0" as success and raises on anything else with a message holding the
code and message; `fetch_transactions` and `fetch_amazon_report` treat only
codes numerically equal to 0 as success — the string "0" included aborts
them — and raise with a message holding the code and message regardless of
any data payload present. -/
theorem claim2_amended :
    (∀ (tok : String) (resp : Envelope), tok ≠ "" →
      (pyEq (resp.statusCode.getD PyVal.none) (PyVal.int 0) = true ∨
        pyEq (resp.statusCode.getD PyVal.none) (PyVal.str "0") = true) →
      SyncProducts.fetch_fba_products_page (some tok) resp =
        { result := Except.ok resp, requests := 1 }) ∧
    (∀ (tok : String) (resp : Envelope), tok ≠ "" →
      pyEq (resp.statusCode.getD PyVal.none) (PyVal.int 0) = false →
      pyEq (resp.statusCode.getD PyVal.none) (PyVal.str "0") = false →
      SyncProducts.fetch_fba_products_page (some tok) resp =
        { result := Except.error (SyncProducts.apiErrorMsg resp), requests := 1 }) ∧
    (∀ (tok : String) (e : Envelope) (rest : List Envelope), tok ≠ "" →
      DailyTransactionReport.statusOk e.statusCode = false →
      DailyTransactionReport.fetch_transactions (some tok) (e :: rest) =
        { result := Except.error (DailyTransactionReport.apiErrorMsg e), requests := 1 }) ∧
    (∀ (tok : String) (e : Envelope) (rest : List Envelope), tok ≠ "" →
      DailyTransactionReport.statusOk e.statusCode = false →
      DailyAmazonReport.fetch_amazon_report (some tok) (e :: rest) =
        { result := Except.error (DailyAmazonReport.apiErrorMsg e), requests := 1 }) := by
  refine ⟨?_, ?_, ?_, ?_⟩
  · intro tok resp htok h
    rcases h with h | h <;>
      simp [SyncProducts.fetch_fba_products_page, htok, h]
  · intro tok resp htok h0 hs
    simp [SyncProducts.fetch_fba_products_page, htok, h0, hs]
  · intro tok e rest htok hbad
    simp [DailyTransactionReport.fetch_transactions, DailyTransactionReport.fetchPages,
      htok, hbad]
  · intro tok e rest htok hbad
    simp [DailyAmazonReport.fetch_amazon_report, DailyAmazonReport.fetchPages, htok, hbad]

/-- Claim C2 (witness): the amended claim instantiated — integer code 0 and
string code "0" both succeed for the FBA page fetcher, integer code 7 fails
it, and an integer-7 envelope with a non-empty payload aborts both paginated
fetchers after one request. -/
theorem claim2_amended_witness :
    SyncProducts.fetch_fba_products_page (some "t")
      { statusCode := some (PyVal.str "0"), statusMsg := Option.none, list := []
        hasMore := Option.none, totalPage := Option.none } =
      { result := Except.ok
          { statusCode := some (PyVal.str "0"), statusMsg := Option.none, list := []
            hasMore := Option.none, totalPage := Option.none }, requests := 1 } ∧
    SyncProducts.fetch_fba_products_page (some "t")
      { statusCode := some (PyVal.int 7), statusMsg := some (PyVal.str "boom"), list := []
        hasMore := Option.none, totalPage := Option.none } =
      { result := Except.error (SyncProducts.apiErrorMsg
          { statusCode := some (PyVal.int 7), statusMsg := some (PyVal.str "boom"), list := []
            hasMore := Option.none, totalPage := Option.none }), requests := 1 } ∧
    DailyTransactionReport.fetch_transactions (some "t")
      [{ statusCode := some (PyVal.int 7), statusMsg := some (PyVal.str "boom")
         list := [[("id", PyVal.int 1)]], hasMore := Option.none, totalPage := Option.none }] =
      { result := Except.error (DailyTransactionReport.apiErrorMsg
          { statusCode := some (PyVal.int 7), statusMsg := some (PyVal.str "boom")
            list := [[("id", PyVal.int 1)]], hasMore := Option.none
            totalPage := Option.none }), requests := 1 } ∧
    DailyAmazonReport.fetch_amazon_report (some "t")
      [{ statusCode := some (PyVal.int 7), statusMsg := some (PyVal.str "boom")
         list := [[("id", PyVal.int 1)]], hasMore := Option.none, totalPage := Option.none }] =
      { result := Except.error (DailyAmazonReport.apiErrorMsg
          { statusCode := some (PyVal.int 7), statusMsg := some (PyVal.str "boom")
            list := [[("id", PyVal.int 1)]], hasMore := Option.none
            totalPage := Option.none }), requests := 1 } :=
  ⟨claim2_amended.1 "t" _ (by decide) (Or.inr (by decide)),
    claim2_amended.2.1 "t" _ (by decide) (by decide) (by decide),
    claim2_amended.2.2.1 "t" _ [] (by decide) (by decide),
    claim2_amended.2.2.2 "t" _ [] (by decide) (by decide)⟩

/-- Claim C3: under the has_more protocol, for any run of successful pages
whose continuation flags are truthy followed by a successful page whose flag
is false or absent, `fetch_amazon_report` returns the concatenation of the
pages' item lists in page order (intra-page order preserved by
concatenation) and issues exactly one request per fetched page, ignoring any
further responses the server could have produced. -/
theorem claim3_has_more_concat (tok : String) (pre : List Envelope) (last : Envelope)
    (rest : List Envelope) (htok : tok ≠ "")
    (hok : ∀ e ∈ pre, DailyTransactionReport.statusOk e.statusCode = true)
    (hoklast : DailyTransactionReport.statusOk last.statusCode = true)
    (hmore : ∀ e ∈ pre, pyTruthy (e.hasMore.getD (PyVal.bool false)) = true)
    (hlast : pyTruthy (last.hasMore.getD (PyVal.bool false)) = false) :
    DailyAmazonReport.fetch_amazon_report (some tok) (pre ++ last :: rest) =
      { result := Except.ok (((pre ++ [last]).map Envelope.list).flatten)
        requests := pre.length + 1 } := by
  have h := fetchAmazonPages_concat last rest hoklast hlast pre [] 0 hok hmore
  simp only [List.nil_append, Nat.zero_add] at h
  simp [DailyAmazonReport.fetch_amazon_report, htok, h]

/-- Claim C3 (witness): the response sequence `[has_more=true, has_more=true,
has_more=false]` with item counts `[3, 2, 1]` yields the 6 items in order and
exactly 3 requests. -/
theorem claim3_witness :
    DailyAmazonReport.fetch_amazon_report (some "t")
      [{ statusCode := some (PyVal.int 0), statusMsg := Option.none
         list := [[("n", PyVal.int 1)], [("n", PyVal.int 2)], [("n", PyVal.int 3)]]
         hasMore := some (PyVal.bool true), totalPage := Option.none },
       { statusCode := some (PyVal.int 0), statusMsg := Option.none
         list := [[("n", PyVal.int 4)], [("n", PyVal.int 5)]]
         hasMore := some (PyVal.bool true), totalPage := Option.none },
       { statusCode := some (PyVal.int 0), statusMsg := Option.none
         list := [[("n", PyVal.int 6)]]
         hasMore := some (PyVal.bool false), totalPage := Option.none }] =
      { result := Except.ok
          [[("n", PyVal.int 1)], [("n", PyVal.int 2)], [("n", PyVal.int 3)],
           [("n", PyVal.int 4)], [("n", PyVal.int 5)], [("n", PyVal.int 6)]]
        requests := 3 } := by
  have h := claim3_has_more_concat "t"
    [{ statusCode := some (PyVal.int 0), statusMsg := Option.none
       list := [[("n", PyVal.int 1)], [("n", PyVal.int 2)], [("n", PyVal.int 3)]]
       hasMore := some (PyVal.bool true), totalPage := Option.none },
     { statusCode := some (PyVal.int 0), statusMsg := Option.none
       list := [[("n", PyVal.int 4)], [("n", PyVal.int 5)]]
       hasMore := some (PyVal.bool true), totalPage := Option.none }]
    { statusCode := some (PyVal.int 0), statusMsg := Option.none
      list := [[("n", PyVal.int 6)]]
      hasMore := some (PyVal.bool false), totalPage := Option.none }
    [] (by decide) (by decide) (by decide) (by decide) (by decide)
  simpa using h

/-- Claim C4: under the total_page protocol with both pages declaring
`total_page = 2`, `fetch_transactions` stops after requesting page 2 even
when page 2 is non-empty (returning both pages' items, 2 requests, ignoring
any further responses); it stops at page 1 when page 1 is empty (1 request);
and it stops at page 2 without taking its items when page 2 is empty. -/
theorem claim4_total_page_two :
    (∀ (tok : String) (e1 e2 : Envelope) (rest : List Envelope), tok ≠ "" →
      DailyTransactionReport.statusOk e1.statusCode = true →
      DailyTransactionReport.statusOk e2.statusCode = true →
      e1.list ≠ [] → e2.list ≠ [] →
      e1.totalPage = some (PyVal.int 2) → e2.totalPage = some (PyVal.int 2) →
      DailyTransactionReport.fetch_transactions (some tok) (e1 :: e2 :: rest) =
        { result := Except.ok (e1.list ++ e2.list), requests := 2 }) ∧
    (∀ (tok : String) (e1 : Envelope) (rest : List Envelope), tok ≠ "" →
      DailyTransactionReport.statusOk e1.statusCode = true →
      e1.list = [] →
      DailyTransactionReport.fetch_transactions (some tok) (e1 :: rest) =
        { result := Except.ok [], requests := 1 }) ∧
    (∀ (tok : String) (e1 e2 : Envelope) (rest : List Envelope), tok ≠ "" →
      DailyTransactionReport.statusOk e1.statusCode = true →
      DailyTransactionReport.statusOk e2.statusCode = true →
      e1.list ≠ [] → e2.list = [] →
      e1.totalPage = some (PyVal.int 2) →
      DailyTransactionReport.fetch_transactions (some tok) (e1 :: e2 :: rest) =
        { result := Except.ok e1.list, requests := 2 }) := by
  refine ⟨?_, ?_, ?_⟩
  · intro tok e1 e2 rest htok hok1 hok2 hne1 hne2 ht1 ht2
    have h1' : e1.list.isEmpty = false := by
      cases hc : e1.list with
      | nil => exact absurd hc hne1
      | cons a l => rfl
    have h2' : e2.list.isEmpty = false := by
      cases hc : e2.list with
      | nil => exact absurd hc hne2
      | cons a l => rfl
    norm_num [DailyTransactionReport.fetch_transactions, DailyTransactionReport.fetchPages,
      htok, hok1, hok2, h1', h2', ht1, ht2, pyInt?]
  · intro tok e1 rest htok hok1 hempty
    have h1' : e1.list.isEmpty = true := by
      rw [hempty]
      rfl
    norm_num [DailyTransactionReport.fetch_transactions, DailyTransactionReport.fetchPages,
      htok, hok1, h1']
  · intro tok e1 e2 rest htok hok1 hok2 hne1 hempty ht1
    have h1' : e1.list.isEmpty = false := by
      cases hc : e1.list with
      | nil => exact absurd hc hne1
      | cons a l => rfl
    have h2' : e2.list.isEmpty = true := by
      rw [hempty]
      rfl
    norm_num [DailyTransactionReport.fetch_transactions, DailyTransactionReport.fetchPages,
      htok, hok1, hok2, h1', h2', ht1, pyInt?]

/-- Claim C4 (witness): two non-empty pages declaring `total_page = 2` yield
both pages' items after exactly 2 requests even though page 2 is non-empty
and a third response was available; an empty first page stops after 1
request. -/
theorem claim4_witness :
    DailyTransactionReport.fetch_transactions (some "t")
      [{ statusCode := some (PyVal.int 0), statusMsg := Option.none
         list := [[("n", PyVal.int 1)]], hasMore := Option.none
         totalPage := some (PyVal.int 2) },
       { statusCode := some (PyVal.int 0), statusMsg := Option.none
         list := [[("n", PyVal.int 2)]], hasMore := Option.none
         totalPage := some (PyVal.int 2) },
       { statusCode := some (PyVal.int 0), statusMsg := Option.none
         list := [[("n", PyVal.int 3)]], hasMore := Option.none
         totalPage := some (PyVal.int 2) }] =
      { result := Except.ok [[("n", PyVal.int 1)], [("n", PyVal.int 2)]], requests := 2 } ∧
    DailyTransactionReport.fetch_transactions (some "t")
      [{ statusCode := some (PyVal.int 0), statusMsg := Option.none
         list := [], hasMore := Option.none, totalPage := some (PyVal.int 2) }] =
      { result := Except.ok [], requests := 1 } := by
  constructor
  · have h := claim4_total_page_two.1 "t"
      { statusCode := some (PyVal.int 0), statusMsg := Option.none
        list := [[("n", PyVal.int 1)]], hasMore := Option.none
        totalPage := some (PyVal.int 2) }
      { statusCode := some (PyVal.int 0), statusMsg := Option.none
        list := [[("n", PyVal.int 2)]], hasMore := Option.none
        totalPage := some (PyVal.int 2) }
      [{ statusCode := some (PyVal.int 0), statusMsg := Option.none
         list := [[("n", PyVal.int 3)]], hasMore := Option.none
         totalPage := some (PyVal.int 2) }]
      (by decide) (by decide) (by decide) (by decide) (by decide) (by decide) (by decide)
    simpa using h
  · have h := claim4_total_page_two.2.1 "t"
      { statusCode := some (PyVal.int 0), statusMsg := Option.none
        list := [], hasMore := Option.none, totalPage := some (PyVal.int 2) }
      [] (by decide) (by decide) (by decide)
    simpa using h

/-- Claim C10: under the total_page protocol, a successful non-empty first
page without a `total_page` field defaults the page count to 1, so the fetch
performs exactly one request and returns that page's items, ignoring any
further responses the server could have produced. -/
theorem claim10_default_total_page (tok : String) (e : Envelope) (rest : List Envelope)
    (htok : tok ≠ "") (hok : DailyTransactionReport.statusOk e.statusCode = true)
    (hne : e.list ≠ []) (htp : e.totalPage = Option.none) :
    DailyTransactionReport.fetch_transactions (some tok) (e :: rest) =
      { result := Except.ok e.list, requests := 1 } := by
  have h1' : e.list.isEmpty = false := by
    cases hc : e.list with
    | nil => exact absurd hc hne
    | cons a l => rfl
  norm_num [DailyTransactionReport.fetch_transactions, DailyTransactionReport.fetchPages,
    htok, hok, h1', htp, pyInt?]

/-- Claim C10 (witness): a successful one-item first page without
`total_page` returns its item after exactly one request even though a second
response was available. -/
theorem claim10_witness :
    DailyTransactionReport.fetch_transactions (some "t")
      [{ statusCode := some (PyVal.int 0), statusMsg := Option.none
         list := [[("n", PyVal.int 1)]], hasMore := Option.none, totalPage := Option.none },
       { statusCode := some (PyVal.int 0), statusMsg := Option.none
         list := [[("n", PyVal.int 2)]], hasMore := Option.none, totalPage := Option.none }] =
      { result := Except.ok [[("n", PyVal.int 1)]], requests := 1 } :=
  claim10_default_total_page "t"
    { statusCode := some (PyVal.int 0), statusMsg := Option.none
      list := [[("n", PyVal.int 1)]], hasMore := Option.none, totalPage := Option.none }
    [{ statusCode := some (PyVal.int 0), statusMsg := Option.none
       list := [[("n", PyVal.int 2)]], hasMore := Option.none, totalPage := Option.none }]
    (by decide) (by decide) (by decide) (by decide)

/-- Claim C7: on a `products` table respecting the `asin` primary-key
invariant (at most one row per code), upserting two records carrying the same
truthy product code leaves exactly one row for that code, and that row's
brand identifier, brand name, title and country code are the ones derived
from the second record (`brand_id`, `brand_name or brand`, `title or name`,
`country_code`). -/
theorem claim7_upsert_last_wins (db : Db) (p1 p2 : Row) (v : PyVal)
    (h1 : Row.getD p1 "asin" PyVal.none = v) (h2 : Row.getD p2 "asin" PyVal.none = v)
    (hv : pyTruthy v = true) (hnd : dbKeyCount db v ≤ 1) :
    dbKeyCount (SyncProducts.upsert_product (SyncProducts.upsert_product db p1) p2) v = 1 ∧
    dbLookup (SyncProducts.upsert_product (SyncProducts.upsert_product db p1) p2) v =
      some (SyncProducts.productEntry p2) := by
  have e1 : SyncProducts.upsert_product db p1 =
      dbUpsert db v (SyncProducts.productEntry p1) := by
    simp [SyncProducts.upsert_product, h1, hv]
  have e2 : ∀ d : Db, SyncProducts.upsert_product d p2 =
      dbUpsert d v (SyncProducts.productEntry p2) := by
    intro d
    simp [SyncProducts.upsert_product, h2, hv]
  rw [e1, e2]
  refine ⟨?_, dbLookup_dbUpsert_self _ v _⟩
  exact dbKeyCount_dbUpsert _ v _ (le_of_eq (dbKeyCount_dbUpsert db v _ hnd))

/-- Claim C7 (witness): upserting `{"asin": "B01", "brand_name": "Old"}` and
then `{"asin": "B01", "brand": "New", "name": "T"}` into the empty store
leaves exactly one "B01" row carrying the fields derived from the second
record. -/
theorem claim7_witness :
    dbKeyCount (SyncProducts.upsert_product (SyncProducts.upsert_product []
        [("asin", PyVal.str "B01"), ("brand_name", PyVal.str "Old")])
        [("asin", PyVal.str "B01"), ("brand", PyVal.str "New"), ("name", PyVal.str "T")])
      (PyVal.str "B01") = 1 ∧
    dbLookup (SyncProducts.upsert_product (SyncProducts.upsert_product []
        [("asin", PyVal.str "B01"), ("brand_name", PyVal.str "Old")])
        [("asin", PyVal.str "B01"), ("brand", PyVal.str "New"), ("name", PyVal.str "T")])
      (PyVal.str "B01") =
      some (SyncProducts.productEntry
        [("asin", PyVal.str "B01"), ("brand", PyVal.str "New"), ("name", PyVal.str "T")]) :=
  claim7_upsert_last_wins []
    [("asin", PyVal.str "B01"), ("brand_name", PyVal.str "Old")]
    [("asin", PyVal.str "B01"), ("brand", PyVal.str "New"), ("name", PyVal.str "T")]
    (PyVal.str "B01") (by decide) (by decide) (by decide) (by decide)

/-- Claim C9 (counterexample): the claim says the single-day filename follows
the pattern `report_<end-date>.html`; but `write_html_report` names the file
`transaction_report_<end-date>.html`, so for the single day 2024-01-01 the
written path differs from the claimed one. -/
theorem claim9_counterexample :
    DailyTransactionReport.write_html_report "docs" "single" "2024-01-01" "2024-01-01" ≠
      "docs" ++ "/" ++ ("report_" ++ "2024-01-01" ++ ".html") := by
  decide

/-- Claim C9 (amended): the generated file's name is
`transaction_report_<end>.html` when the begin date equals the end date and
`transaction_report_<begin>_to_<end>_<range-kind>.html` otherwise, `the
function returning the written path`; every range kind `parse_range_arg` can
produce is drawn from the vocabulary today/yesterday/last7/last14/single. -/
theorem claim9_amended :
    (∀ docs_dir range_key d : String,
      DailyTransactionReport.write_html_report docs_dir range_key d d =
        docs_dir ++ "/" ++ ("transaction_report_" ++ d ++ ".html")) ∧
    (∀ docs_dir range_key b e : String, b ≠ e →
      DailyTransactionReport.write_html_report docs_dir range_key b e =
        docs_dir ++ "/" ++
          ("transaction_report_" ++ b ++ "_to_" ++ e ++ "_" ++ range_key ++ ".html")) ∧
    (∀ (fmt : Int → String) (parseDate : String → Option Int) (today : Int)
        (argv : List String) (b e rk : String),
      DailyTransactionReport.parse_range_arg fmt parseDate today argv = some (b, e, rk) →
      rk ∈ ["today", "yesterday", "last7", "last14", "single"]) := by
  refine ⟨?_, ?_, ?_⟩
  · intro docs_dir range_key d
    simp [DailyTransactionReport.write_html_report]
  · intro docs_dir range_key b e hne
    simp [DailyTransactionReport.write_html_report, hne]
  · intro fmt parseDate today argv b e rk h
    simp only [DailyTransactionReport.parse_range_arg] at h
    split_ifs at h with h1 h2 h3 h4 h5
    · simp only [Option.some.injEq, Prod.mk.injEq] at h
      rcases h with ⟨-, -, hrk⟩
      subst hrk
      simp
    · simp only [Option.some.injEq, Prod.mk.injEq] at h
      rcases h with ⟨-, -, hrk⟩
      subst hrk
      simp
    · simp only [Option.some.injEq, Prod.mk.injEq] at h
      rcases h with ⟨-, -, hrk⟩
      subst hrk
      simp
    · simp only [Option.some.injEq, Prod.mk.injEq] at h
      rcases h with ⟨-, -, hrk⟩
      subst hrk
      simp
    · simp only [Option.some.injEq, Prod.mk.injEq] at h
      rcases h with ⟨-, -, hrk⟩
      subst hrk
      simp
    · rcases hp : parseDate (((argv.getD 1 "").trim).toLower) with _ | d1
      · rw [hp] at h
        cases h
      · rw [hp] at h
        simp only [Option.some.injEq, Prod.mk.injEq] at h
        rcases h with ⟨-, -, hrk⟩
        subst hrk
        simp

/-- Claim C9 (witness): the amended filename patterns instantiated for a
single day and a 7-day range, and the default invocation's range kind
("yesterday") is in the vocabulary. -/
theorem claim9_witness :
    DailyTransactionReport.write_html_report "docs" "single" "2024-01-01" "2024-01-01" =
      "docs" ++ "/" ++ ("transaction_report_" ++ "2024-01-01" ++ ".html") ∧
    DailyTransactionReport.write_html_report "docs" "last7" "2024-01-01" "2024-01-07" =
      "docs" ++ "/" ++ ("transaction_report_" ++ "2024-01-01" ++ "_to_" ++ "2024-01-07" ++
        "_" ++ "last7" ++ ".html") ∧
    "yesterday" ∈ ["today", "yesterday", "last7", "last14", "single"] :=
  ⟨claim9_amended.1 "docs" "single" "2024-01-01",
    claim9_amended.2.1 "docs" "last7" "2024-01-01" "2024-01-07" (by decide),
    claim9_amended.2.2 (fun _ => "2024-01-09") (fun _ => Option.none) 0 []
      "2024-01-09" "2024-01-09" "yesterday" (by rfl)⟩
